import Mathlib

/-!
Verification of the intelligent caching and change-detection layer of the
factor-impact-intelligence repository.

The development shallowly embeds `src/cache_manager.py` (class
`DataCacheManager`) and `src/sentinel_engine.py` (class `SentinelEngine`).
SQLite tables become Lean lists of rows; each method becomes a pure function
taking the current store state and an explicit clock value and returning the
new state.  Timestamps are rationals measured in hours.  The source mixes
`datetime.now()` (local time) with SQLite's `datetime('now')` (UTC); the model
uses a single clock, which is faithful for the properties below since every
non-zero TTL in the freshness table (at least 24 hours) exceeds any possible
UTC offset.

Connection/commit semantics matter in one place and are modelled explicitly:
`SentinelEngine.learn_from_analysis` INSERTs the current analysis row on one
connection and, before committing, calls `_detect_changes`, which opens a
separate SQLite connection.  SQLite never exposes uncommitted rows of one
connection to another (no dirty reads, in both rollback-journal and WAL
modes), so the SELECT inside `_detect_changes` sees only the rows committed by
earlier calls — the just-inserted current row is invisible to it.  The model
therefore runs change detection against the pre-insert history.
-/

namespace FactorImpact

/-! ### Cache manager (src/cache_manager.py) -/

/-- Payload of a cache entry.  The source stores `json.dumps(data)` in the
`data` column and returns `json.loads` of it; for JSON-serializable payloads
the round trip is the identity, so the model keeps the serialized JSON text
itself as the payload value. -/
abbrev Payload := String

/-- Row of the `cache` table (src/cache_manager.py lines 64-76).  `ticker` is
nullable; timestamps are rationals in hours. -/
structure CacheEntry where
  key : String
  data_type : String
  ticker : Option String
  data : Payload
  created_at : ℚ
  accessed_at : ℚ
  expires_at : ℚ
  access_count : Nat
  cost_saved : ℚ
deriving DecidableEq

/-- Row of the `api_costs` table (lines 79-89); only the columns written by
`_log_cache_hit` are modelled. -/
structure ApiCostRow where
  module_name : String
  api_name : String
  cost : ℚ
  cache_hit : Bool
deriving DecidableEq

/-- State of the cache database: the `cache` table (keyed by `key`, kept in
insertion order) and the `api_costs` log.  The `earnings_calendar` and
`freshness_monitor` tables are never touched by the operations under
verification and are omitted. -/
structure CacheState where
  cache : List CacheEntry
  api_costs : List ApiCostRow
deriving DecidableEq

/-- The empty cache database, as produced by `_init_database`. -/
def emptyCache : CacheState := { cache := [], api_costs := [] }

/-- Python `str.upper()` as used on tickers in `_generate_key` (line 121):
uppercase every character.  Stated structurally over the character list (the
same function as `String.toUpper`, whose core implementation is by
well-founded recursion and hence opaque to kernel evaluation); tickers in
this system are ASCII, where `Char.toUpper` agrees with Python. -/
def py_upper (s : String) : String := String.mk (s.data.map Char.toUpper)

/-- Whether the first character list is a prefix of the second. -/
def chars_prefix : List Char → List Char → Bool
  | [], _ => true
  | _ :: _, [] => false
  | p :: ps, c :: cs => p == c && chars_prefix ps cs

/-- Fuel-driven worker for `py_replace`: replace non-overlapping occurrences
of `patt` left to right.  The fuel (initially the string length) only makes
the recursion structural; with a non-empty pattern each step consumes at
least one character, so the fuel never runs out. -/
def replace_chars (patt repl : List Char) : Nat → List Char → List Char
  | _, [] => []
  | 0, s => s
  | Nat.succ n, c :: cs =>
    if chars_prefix patt (c :: cs) then
      repl ++ replace_chars patt repl n (List.drop (patt.length - 1) cs)
    else c :: replace_chars patt repl n cs

/-- Python `str.replace(patt, repl)` for a non-empty pattern, as used in
`_detect_changes` (`field.replace('_score', '')`, line 216): replace all
non-overlapping occurrences, scanning left to right.  Same behaviour as
`String.replace`, stated structurally so proofs can evaluate it. -/
def py_replace (s patt repl : String) : String :=
  if patt.isEmpty then s
  else String.mk (replace_chars patt.data repl.data s.data.length s.data)

/-- `FRESHNESS_RULES` (lines 19-47): data-kind to TTL in hours. -/
def FRESHNESS_RULES : List (String × ℚ) :=
  [("stock_price_current", 0), ("breaking_news", 0), ("earnings_day", 0),
   ("fed_rate", 24), ("inflation", 24), ("treasury_yield", 24),
   ("stock_fundamentals", 24),
   ("macro_trends", 168), ("regulatory_updates", 168),
   ("industry_dynamics", 168), ("esg_analysis", 168),
   ("financial_statements", 2160), ("supplier_relationships", 2160),
   ("customer_relationships", 2160), ("competitive_landscape", 2160),
   ("company_profile", 8760), ("business_model", 8760),
   ("industry_classification", 8760)]

/-- `self.FRESHNESS_RULES.get(data_type, 24)`: TTL lookup with 24-hour
default (lines 133 and 197). -/
def freshness_ttl (data_type : String) : ℚ :=
  (FRESHNESS_RULES.lookup data_type).getD 24

/-- Lexicographic strict order on character lists by code point. -/
def chars_lt : List Char → List Char → Bool
  | [], [] => false
  | [], _ :: _ => true
  | _ :: _, [] => false
  | a :: as, b :: bs => decide (a.val < b.val) || (a == b && chars_lt as bs)

/-- Python string comparison `<` (lexicographic by code point; the same order
as Lean's `String.instLT`, stated structurally so proofs can evaluate it). -/
def str_lt (a b : String) : Bool := chars_lt a.data b.data

/-- Python tuple comparison `<` on `(key, value)` string pairs, as used by
`sorted(kwargs.items())` in `_generate_key` (line 122). -/
def kwargLt (a b : String × String) : Bool :=
  str_lt a.1 b.1 || (a.1 == b.1 && str_lt a.2 b.2)

/-- Stable insertion of a pair into a sorted list: the new element goes in
front of the first element not strictly below it. -/
def insert_kwarg (a : String × String) : List (String × String) → List (String × String)
  | [] => [a]
  | b :: bs => if kwargLt b a then b :: insert_kwarg a bs else a :: b :: bs

/-- `sorted(kwargs.items())`: stable ascending sort by the Python tuple
order.  Keyword-argument keys are unique, so the sorted order is unique;
stated as a structural insertion sort so proofs can evaluate it. -/
def sort_kwargs : List (String × String) → List (String × String)
  | [] => []
  | a :: rest => insert_kwarg a (sort_kwargs rest)

/-- `DataCacheManager._generate_key` (lines 117-125).  The source builds
`key_string = "|".join(key_parts)` — the data kind, then the uppercased ticker
when the ticker is truthy (non-`None` and non-empty), then `"k:v"` for the
sorted keyword arguments — and returns `hashlib.md5(key_string).hexdigest()`.
MD5 is a fixed deterministic function of its input string, so the model takes
the pre-hash `key_string` itself as the key: equalities between keys proved
here transfer verbatim to equalities between the MD5 digests the source
stores. -/
def generate_key (data_type : String) (ticker : Option String)
    (kwargs : List (String × String)) : String :=
  String.intercalate "|"
    ([data_type] ++
      (match ticker with
       | some t => if t.isEmpty then [] else [py_upper t]
       | none => []) ++
      (sort_kwargs kwargs).map (fun kv => kv.1 ++ ":" ++ kv.2))

/-- `SELECT ... FROM cache WHERE key = ?` followed by `fetchone()`: first row
of the table matching the key. -/
def findEntry (st : CacheState) (key : String) : Option CacheEntry :=
  st.cache.find? (fun e => e.key == key)

/-- `DataCacheManager.should_refresh` (lines 127-155): true when the TTL is 0,
when no row exists under the kwargs-less key, or when the row's age has
reached the TTL.  Note the source computes the key from `data_type` and
`ticker` only — keyword arguments are not part of this lookup. -/
def should_refresh (st : CacheState) (now : ℚ) (data_type : String)
    (ticker : Option String) : Bool :=
  if freshness_ttl data_type = 0 then true
  else
    match findEntry st (generate_key data_type ticker []) with
    | none => true
    | some e => decide (freshness_ttl data_type ≤ now - e.created_at)

/-- `DataCacheManager._estimate_cost` (lines 229-240): per-data-kind cost
table with a 0.01 default. -/
def estimate_cost (data_type : String) : ℚ :=
  (([("fed_rate", 1/1000), ("inflation", 1/1000), ("treasury_yield", 1/1000),
     ("supplier_relationships", 17/100), ("customer_relationships", 17/100),
     ("macro_trends", 6/100), ("financial_statements", 2/100)] :
      List (String × ℚ)).lookup data_type).getD (1/100)

/-- Row appended by `_log_cache_hit` (lines 213-227); `ticker or 'N/A'` maps
a `None` or empty ticker to `"N/A"`. -/
def log_cache_hit_row (data_type : String) (ticker : Option String) : ApiCostRow :=
  { module_name := data_type,
    api_name := match ticker with
                | some t => if t.isEmpty then "N/A" else t
                | none => "N/A",
    cost := estimate_cost data_type,
    cache_hit := true }

/-- `DataCacheManager.get` (lines 157-190).  Computes the full key (with
kwargs); returns MISS when `should_refresh` holds; otherwise looks up a row
with that key whose `expires_at` lies strictly in the future, and on a hit
bumps `accessed_at`/`access_count` on the row, appends an `api_costs` log row
(`_log_cache_hit`), and returns the payload. -/
def get (st : CacheState) (now : ℚ) (data_type : String) (ticker : Option String)
    (kwargs : List (String × String)) : Option Payload × CacheState :=
  if should_refresh st now data_type ticker then (none, st)
  else
    match st.cache.find? (fun e =>
        e.key == generate_key data_type ticker kwargs && decide (now < e.expires_at)) with
    | some e =>
        (some e.data,
         { st with
             cache := st.cache.map (fun x =>
               if x.key == generate_key data_type ticker kwargs then
                 { x with accessed_at := now, access_count := x.access_count + 1 }
               else x),
             api_costs := st.api_costs ++ [log_cache_hit_row data_type ticker] })
    | none => (none, st)

/-- `DataCacheManager.set` (lines 192-211): `INSERT OR REPLACE` of a fresh row
under the full key.  Columns absent from the INSERT take their schema
defaults: `created_at`/`accessed_at` become the current time and
`access_count` becomes 0; `cost_saved` is set to the `cost` argument.  SQLite
`INSERT OR REPLACE` deletes any existing row with the same primary key and
inserts the new one. -/
def set (st : CacheState) (now : ℚ) (data_type : String) (data : Payload)
    (ticker : Option String) (cost : ℚ) (kwargs : List (String × String)) : CacheState :=
  { st with
      cache := st.cache.filter
          (fun e => e.key != generate_key data_type ticker kwargs) ++
        [{ key := generate_key data_type ticker kwargs,
           data_type := data_type, ticker := ticker, data := data,
           created_at := now, accessed_at := now,
           expires_at := now + freshness_ttl data_type,
           access_count := 0, cost_saved := cost }] }

/-- Python truthiness of an optional-string argument: `None` and the empty
string are falsy. -/
def truthy : Option String → Bool
  | none => false
  | some s => !s.isEmpty

/-- `DataCacheManager.force_refresh` (lines 334-348): delete by exact key when
both arguments are truthy, else by `data_type` column, else by `ticker`
column; when neither argument is truthy no branch runs and nothing is
deleted. -/
def force_refresh (st : CacheState) (data_type : Option String)
    (ticker : Option String) : CacheState :=
  if truthy data_type && truthy ticker then
    { st with cache := st.cache.filter
                (fun e => e.key != generate_key (data_type.getD "") ticker []) }
  else if truthy data_type then
    { st with cache := st.cache.filter (fun e => e.data_type != data_type.getD "") }
  else if truthy ticker then
    { st with cache := st.cache.filter (fun e => !(e.ticker == ticker)) }
  else st

/-! ### Sentinel engine (src/sentinel_engine.py) -/

/-- A module sub-dictionary inside an analysis `results` dict
(`results['monetary']`, `results['company']`, ...); only the `score` field is
read by the operations under verification. -/
structure ModuleResult where
  score : Option ℚ := none
deriving DecidableEq

/-- The `results` dict passed to `SentinelEngine.learn_from_analysis`.  Each
field models `results.get(...)`: a `none` models an absent dictionary key.
The entity lists used by `_update_relationships` are not modelled (no claim
concerns the `relationships` table). -/
structure AnalysisResults where
  combined_score : Option ℚ := none
  combined_signal : Option String := none
  monetary : Option ModuleResult := none
  company : Option ModuleResult := none
  suppliers : Option ModuleResult := none
  customers : Option ModuleResult := none
  macro_mod : Option ModuleResult := none
  total_cost : ℚ := 0
deriving DecidableEq

/-- Row of the `analysis_history` table (lines 36-51).  `analysis_date` is
the commit-time clock value; the table is append-only, so list order is
insertion order, which coincides with `analysis_date` order. -/
structure HistoryRow where
  ticker : String
  analysis_date : ℚ
  combined_score : Option ℚ
  signal : Option String
  monetary_score : Option ℚ
  company_score : Option ℚ
  supplier_score : Option ℚ
  customer_score : Option ℚ
  macro_score : Option ℚ
  cost : ℚ
deriving DecidableEq

/-- Row of the `change_log` table (lines 54-66), as built by the tuples of
`_detect_changes`.  The source stores `str(old)`/`str(new)`; the model keeps
the rational values' canonical rendering (the textual spelling of a Python
float differs, but no property under verification depends on it). -/
structure ChangeRow where
  ticker : String
  module_name : String
  field : String
  old_value : String
  new_value : String
  magnitude : ℚ
  significance : String
deriving DecidableEq

/-- Row of the `learned_insights` table (lines 69-81), as built by
`_extract_insights`. -/
structure Insight where
  ticker : String
  insight_type : String
  insight : String
  confidence : ℚ
deriving DecidableEq

/-- Committed state of the sentinel database.  The `alert_rules` and
`relationships` tables are never read by the operations under verification
and are omitted. -/
structure SentinelState where
  analysis_history : List HistoryRow
  change_log : List ChangeRow
  learned_insights : List Insight
deriving DecidableEq

/-- The empty sentinel database, as produced by `_init_database`. -/
def emptySentinel : SentinelState :=
  { analysis_history := [], change_log := [], learned_insights := [] }

/-- The `analysis_history` row INSERTed by `learn_from_analysis`
(lines 122-138): each column is the corresponding `results.get(...)` chain. -/
def results_row (ticker : String) (now : ℚ) (r : AnalysisResults) : HistoryRow :=
  { ticker := ticker, analysis_date := now,
    combined_score := r.combined_score, signal := r.combined_signal,
    monetary_score := r.monetary.bind (fun m => m.score),
    company_score := r.company.bind (fun m => m.score),
    supplier_score := r.suppliers.bind (fun m => m.score),
    customer_score := r.customers.bind (fun m => m.score),
    macro_score := r.macro_mod.bind (fun m => m.score),
    cost := r.total_cost }

/-- The SELECT of `_detect_changes` (lines 182-189): rows of the given ticker
ordered by `analysis_date DESC`, `LIMIT 1 OFFSET 1`.  The argument is the
*committed* table — the caller's uncommitted INSERT of the current record is
not visible on this separate connection — so the row returned is the
second-most-recent committed record for the ticker (and `none` when fewer
than two committed records exist). -/
def prev_analysis (committed : List HistoryRow) (ticker : String) : Option HistoryRow :=
  ((committed.filter (fun r => r.ticker == ticker)).reverse).get? 1

/-- The `score_fields` list of `_detect_changes` (lines 200-207): field name,
value from the previous row, value from the current `results` dict. -/
def score_fields (previous : HistoryRow) (current : AnalysisResults) :
    List (String × Option ℚ × Option ℚ) :=
  [("combined_score", previous.combined_score, current.combined_score),
   ("monetary_score", previous.monetary_score, current.monetary.bind (fun m => m.score)),
   ("company_score", previous.company_score, current.company.bind (fun m => m.score)),
   ("supplier_score", previous.supplier_score, current.suppliers.bind (fun m => m.score)),
   ("customer_score", previous.customer_score, current.customers.bind (fun m => m.score)),
   ("macro_score", previous.macro_score, current.macro_mod.bind (fun m => m.score))]

/-- Body of the comparison loop of `_detect_changes` (lines 209-222) for a
single field: skip the field when either value is missing; otherwise emit a
change tuple exactly when `|new - old| >= 0.5`, with significance `HIGH` when
the magnitude is at least 1.5 and `MEDIUM` otherwise.  The `module` column is
`field.replace('_score', '')`. -/
def field_event (ticker field : String) (old? new? : Option ℚ) : Option ChangeRow :=
  match old?, new? with
  | some old, some new =>
      if 1/2 ≤ |new - old| then
        some { ticker := ticker,
               module_name := py_replace field "_score" "",
               field := field,
               old_value := toString old, new_value := toString new,
               magnitude := |new - old|,
               significance := if 3/2 ≤ |new - old| then "HIGH" else "MEDIUM" }
      else none
  | _, _ => none

/-- The comparison loop of `_detect_changes` over all six score fields. -/
def score_changes (ticker : String) (previous : HistoryRow)
    (current : AnalysisResults) : List ChangeRow :=
  (score_fields previous current).filterMap
    (fun fon => field_event ticker fon.1 fon.2.1 fon.2.2)

/-- `SentinelEngine._detect_changes` (lines 176-224), evaluated against the
committed history visible on its own fresh connection: with no previous
record the result is empty, otherwise the six score fields are compared. -/
def detect_changes (committed : List HistoryRow) (ticker : String)
    (current : AnalysisResults) : List ChangeRow :=
  match prev_analysis committed ticker with
  | none => []
  | some previous => score_changes ticker previous current

/-- `SentinelEngine._extract_insights` (lines 226-257): threshold-driven
insights.  `results.get(mod, {}).get('score', default)` is the module score
with the given default when the module dict or its score is absent. -/
def extract_insights (ticker : String) (r : AnalysisResults) : List Insight :=
  (if ((r.suppliers.bind (fun m => m.score)).getD 10) < 6 then
    [{ ticker := ticker, insight_type := "supply_chain_risk",
       insight := "High supply chain risk detected (score: " ++
         toString (((r.suppliers.bind (fun m => m.score)).getD 10)) ++ ")",
       confidence := 8/10 }]
   else []) ++
  (if 8 ≤ ((r.customers.bind (fun m => m.score)).getD 0) then
    [{ ticker := ticker, insight_type := "demand_strength",
       insight := "Strong customer demand (score: " ++
         toString (((r.customers.bind (fun m => m.score)).getD 0)) ++ ")",
       confidence := 9/10 }]
   else []) ++
  (if ((r.monetary.bind (fun m => m.score)).getD 10) < 5 then
    [{ ticker := ticker, insight_type := "monetary_headwind",
       insight := "Monetary headwinds present (score: " ++
         toString (((r.monetary.bind (fun m => m.score)).getD 10)) ++ ")",
       confidence := 7/10 }]
   else [])

/-- `SentinelEngine.learn_from_analysis` (lines 113-174).  One transaction on
the main connection INSERTs the history row, the change rows and the insight
rows, committing at the end; `_detect_changes` runs in between on a separate
connection and therefore sees only the pre-call committed history (the
current INSERT is uncommitted and invisible to it). -/
def learn_from_analysis (st : SentinelState) (now : ℚ) (ticker : String)
    (results : AnalysisResults) : SentinelState :=
  { analysis_history := st.analysis_history ++ [results_row ticker now results],
    change_log := st.change_log ++ detect_changes st.analysis_history ticker results,
    learned_insights := st.learned_insights ++ extract_insights ticker results }

/-- The rows scanned by `get_historical_trend` (lines 280-289): rows of the
ticker with `analysis_date` strictly after `now - days` (converted to hours),
in ascending date order (= insertion order). -/
def trend_rows (st : SentinelState) (now : ℚ) (ticker : String) (days : ℚ) :
    List HistoryRow :=
  st.analysis_history.filter
    (fun r => r.ticker == ticker && decide (now - 24 * days < r.analysis_date))

/-- `SentinelEngine.get_historical_trend` (lines 273-328), reduced to the
`trend` field of the returned dict.  No rows gives `no_data`; a single row
gives `insufficient_data`; otherwise the earliest and latest combined scores
in the window are compared (`improving` when latest > earliest + 1.0,
`declining` when latest < earliest - 1.0, else `stable`).  When either of
those combined scores is NULL the Python comparison raises `TypeError`;
the model returns `none` for that crash. -/
def get_historical_trend (st : SentinelState) (now : ℚ) (ticker : String)
    (days : ℚ) : Option String :=
  let rows := trend_rows st now ticker days
  if rows.isEmpty then some "no_data"
  else if 2 ≤ rows.length then
    match rows.head?.bind (fun r => r.combined_score),
          rows.getLast?.bind (fun r => r.combined_score) with
    | some first_score, some last_score =>
        some (if first_score + 1 < last_score then "improving"
              else if last_score < first_score - 1 then "declining"
              else "stable")
    | _, _ => none
  else some "insufficient_data"

/-! ### Scenario builders used to state the threshold claim -/

/-- The six tracked score fields of `_detect_changes`, in source order. -/
def field_name : Fin 6 → String
  | 0 => "combined_score"
  | 1 => "monetary_score"
  | 2 => "company_score"
  | 3 => "supplier_score"
  | 4 => "customer_score"
  | 5 => "macro_score"

/-- A history row for ticker `t` carrying the value `v` in exactly the `i`-th
tracked score field (every other score absent). -/
def rowWithField (t : String) (i : Fin 6) (v : ℚ) : HistoryRow :=
  { ticker := t, analysis_date := 0,
    combined_score := if i = 0 then some v else none,
    signal := none,
    monetary_score := if i = 1 then some v else none,
    company_score := if i = 2 then some v else none,
    supplier_score := if i = 3 then some v else none,
    customer_score := if i = 4 then some v else none,
    macro_score := if i = 5 then some v else none,
    cost := 0 }

/-- An analysis-results dict carrying the value `v` in exactly the `i`-th
tracked score field (every other score absent). -/
def resWithField (i : Fin 6) (v : ℚ) : AnalysisResults :=
  { combined_score := if i = 0 then some v else none,
    monetary := if i = 1 then some { score := some v } else none,
    company := if i = 2 then some { score := some v } else none,
    suppliers := if i = 3 then some { score := some v } else none,
    customers := if i = 4 then some { score := some v } else none,
    macro_mod := if i = 5 then some { score := some v } else none }

/-! ### Auxiliary lemmas -/

/-- Searching the store left behind by an `INSERT OR REPLACE` with a predicate
that can only hold on the replaced key finds the new row (or nothing). -/
theorem find?_filter_key_append (l : List CacheEntry) (k : String) (e : CacheEntry)
    (q : CacheEntry → Bool) (hq : ∀ x, x.key ≠ k → q x = false) :
    ((l.filter (fun x => x.key != k)) ++ [e]).find? q =
      if q e then some e else none := by
  induction l with
  | nil =>
      cases hqe : q e <;> simp [List.find?, hqe]
  | cons a t ih =>
      by_cases hak : a.key = k
      · simpa [List.filter_cons, hak] using ih
      · have h2 : q a = false := hq a hak
        simpa [List.filter_cons, hak, List.find?_cons, h2] using ih

/-- The access-tracking UPDATE of `get` leaves rows under other keys
untouched. -/
theorem map_update_filter (l : List CacheEntry) (k : String) (now : ℚ) :
    (l.filter (fun x => x.key != k)).map (fun x =>
        if x.key == k then
          { x with accessed_at := now, access_count := x.access_count + 1 }
        else x) =
      l.filter (fun x => x.key != k) := by
  induction l with
  | nil => rfl
  | cons a t ih =>
      by_cases hak : a.key = k
      · simpa [List.filter_cons, hak] using ih
      · simpa [List.filter_cons, hak] using ih

/-- Full description of `set` immediately followed by `get` at the same clock
value, for any two ticker spellings that generate the same key and any
data kind with a positive TTL: the stored payload is returned, the row's hit
counter moves to 1, and one cache-hit log row is appended. -/
theorem get_set_round_trip (st : CacheState) (now : ℚ) (dk : String) (p : Payload)
    (t1 t2 : Option String) (cost : ℚ)
    (hkey : generate_key dk t1 [] = generate_key dk t2 [])
    (httl : 0 < freshness_ttl dk) :
    get (set st now dk p t1 cost []) now dk t2 [] =
      (some p,
       { cache := st.cache.filter (fun e => e.key != generate_key dk t1 []) ++
           [{ key := generate_key dk t1 [], data_type := dk, ticker := t1, data := p,
              created_at := now, accessed_at := now,
              expires_at := now + freshness_ttl dk,
              access_count := 1, cost_saved := cost }],
         api_costs := st.api_costs ++ [log_cache_hit_row dk t2] }) := by
  have httl' : freshness_ttl dk ≠ 0 := httl.ne'
  set k : String := generate_key dk t1 [] with hk
  set E : CacheEntry :=
    { key := k, data_type := dk, ticker := t1, data := p,
      created_at := now, accessed_at := now,
      expires_at := now + freshness_ttl dk,
      access_count := 0, cost_saved := cost } with hE
  have hset : set st now dk p t1 cost [] =
      { cache := st.cache.filter (fun e => e.key != k) ++ [E], api_costs := st.api_costs } := by
    simp [set, hE, hk]
  have hfind1 : findEntry (set st now dk p t1 cost []) (generate_key dk t2 []) = some E := by
    rw [hset, ← hkey, findEntry]
    have := find?_filter_key_append st.cache k E (fun e => e.key == k)
      (fun x hx => by simpa using hx)
    simp only [this]
    simp [hE]
  have hsr : should_refresh (set st now dk p t1 cost []) now dk t2 = false := by
    rw [should_refresh, if_neg httl', hfind1]
    simp [hE, not_le.mpr httl]
  have hfind2 :
      (set st now dk p t1 cost []).cache.find? (fun e =>
          e.key == generate_key dk t2 [] && decide (now < e.expires_at)) = some E := by
    rw [hset, ← hkey]
    show (List.filter (fun e => e.key != k) st.cache ++ [E]).find? _ = some E
    rw [find?_filter_key_append st.cache k E _
      (fun x hx => by simp [hx])]
    simp [hE, httl]
  rw [get, hsr, if_neg (by simp), hfind2, hset, ← hkey]
  simp only [List.map_append, map_update_filter]
  simp [hE]

/-- Description of `get` on a hit: when `should_refresh` is false and a
matching unexpired row exists, `get` returns its payload, bumps the row's
access tracking and appends one cache-hit log row. -/
theorem get_hit (st : CacheState) (now : ℚ) (data_type : String) (ticker : Option String)
    (kwargs : List (String × String)) (e : CacheEntry)
    (hsr : should_refresh st now data_type ticker = false)
    (hfind : st.cache.find? (fun x => x.key == generate_key data_type ticker kwargs
        && decide (now < x.expires_at)) = some e) :
    get st now data_type ticker kwargs =
      (some e.data,
       { cache := st.cache.map (fun x =>
           if x.key == generate_key data_type ticker kwargs then
             { x with accessed_at := now, access_count := x.access_count + 1 }
           else x),
         api_costs := st.api_costs ++ [log_cache_hit_row data_type ticker] }) := by
  rw [get, hsr, if_neg (by simp), hfind]

/-! ### Claim theorems -/

/-- Claim C1 (code bug): after recording AnalysisRecord(combined_score=7.0)
and then AnalysisRecord(combined_score=5.0) for subject "ACME", the change
detection performed for the second record is claimed to compare it against
the first and return one HIGH ChangeEvent of magnitude 2.0 on
combined_score.  The code does not: `_detect_changes` runs on a separate
SQLite connection before the second INSERT is committed, so it sees only the
single committed 7.0 record, and its `LIMIT 1 OFFSET 1` skips that record as
well; no previous record is found and no ChangeEvent at all is recorded. -/
theorem c1_second_record_produces_no_change_event :
    detect_changes (learn_from_analysis emptySentinel 0 "ACME"
        { combined_score := some 7 }).analysis_history "ACME"
        { combined_score := some 5 } = [] ∧
    (learn_from_analysis (learn_from_analysis emptySentinel 0 "ACME"
        { combined_score := some 7 }) 1 "ACME"
        { combined_score := some 5 }).change_log = [] :=
  ⟨by decide, by decide⟩

/-- Claim C2 (counterexample): the claim that any two inputs differing in
data_kind, subject or extra produce different keys is false — two inputs that
differ in the subject produce the same key, because `_generate_key`
uppercases the ticker before hashing. -/
theorem c2_distinct_inputs_same_key :
    generate_key "stock_fundamentals" (some "acme") [] =
      generate_key "stock_fundamentals" (some "ACME") [] ∧
    ("acme" : String) ≠ "ACME" :=
  ⟨by decide, by decide⟩

/-- Claim C2 (amended): the key is a deterministic pure function of
`(data_kind, subject, extra)` — equal inputs give equal keys across calls and
restarts — but it separates subjects only up to the canonicalization applied
by `_generate_key`: any two non-empty subjects with the same uppercasing
yield the same key for every data kind and extra params, and the empty
subject yields the same key as an absent one. -/
theorem c2_key_deterministic_up_to_canonical_subject
    (data_type : String) (kwargs : List (String × String)) (s1 s2 : String)
    (h1 : s1.isEmpty = false) (h2 : s2.isEmpty = false)
    (hu : py_upper s1 = py_upper s2) :
    generate_key data_type (some s1) kwargs = generate_key data_type (some s2) kwargs ∧
    generate_key data_type (some "") kwargs = generate_key data_type none kwargs :=
  ⟨by simp [generate_key, h1, h2, hu], rfl⟩

/-- Witness for the amended C2 at concrete inputs. -/
theorem c2_key_deterministic_up_to_canonical_subject_witness :
    generate_key "stock_fundamentals" (some "acme") [] =
        generate_key "stock_fundamentals" (some "AcMe") [] ∧
    generate_key "stock_fundamentals" (some "") [] =
        generate_key "stock_fundamentals" none [] :=
  c2_key_deterministic_up_to_canonical_subject "stock_fundamentals" [] "acme" "AcMe"
    (by decide) (by decide) (by decide)

/-- Claim C3: for every data kind whose freshness rule is TTL 0, `get`
returns MISS (`none`) even immediately after a `set` of the same data kind,
subject and extra params: `should_refresh` returns true whenever the TTL is
0, and `get` then returns `none` without reading the store. -/
theorem c3_ttl_zero_always_misses (st : CacheState) (now now' : ℚ)
    (data_type : String) (ticker : Option String) (payload : Payload) (cost : ℚ)
    (kwargs : List (String × String)) (h : freshness_ttl data_type = 0) :
    (get (set st now data_type payload ticker cost kwargs) now' data_type ticker kwargs).1 =
      none := by
  simp [get, should_refresh, h]

/-- Witness for C3 on the TTL-0 kind stock_price_current. -/
theorem c3_ttl_zero_always_misses_witness :
    (get (set emptyCache 0 "stock_price_current" "p" (some "ACME") 0 []) 0
      "stock_price_current" (some "ACME") []).1 = none :=
  c3_ttl_zero_always_misses emptyCache 0 0 "stock_price_current" (some "ACME") "p" 0 [] rfl

/-- Claim C4: for every data kind with strictly positive TTL, a `set`
followed immediately by a `get` of the same data kind and subject (no time
passing) returns exactly the stored payload. -/
theorem c4_set_get_round_trip (st : CacheState) (now : ℚ) (data_type : String)
    (ticker : Option String) (payload : Payload) (cost : ℚ)
    (h : 0 < freshness_ttl data_type) :
    (get (set st now data_type payload ticker cost []) now data_type ticker []).1 =
      some payload := by
  rw [get_set_round_trip st now data_type payload ticker ticker cost rfl h]

/-- Witness for C4 on financial_statements (TTL 2160h). -/
theorem c4_set_get_round_trip_witness :
    (get (set emptyCache 0 "financial_statements" "p" (some "ACME") 0 []) 0
      "financial_statements" (some "ACME") []).1 = some "p" :=
  c4_set_get_round_trip emptyCache 0 "financial_statements" (some "ACME") "p" 0
    (by rw [show freshness_ttl "financial_statements" = 2160 from rfl]; norm_num)

/-- Claim C6: for a subject with no prior record in the history ledger,
recording its first-ever analysis produces zero ChangeEvents: the change
detector finds no previous record and the change log is unchanged. -/
theorem c6_first_record_no_change_events (st : SentinelState) (now : ℚ)
    (ticker : String) (results : AnalysisResults)
    (h : st.analysis_history.filter (fun r => r.ticker == ticker) = []) :
    detect_changes st.analysis_history ticker results = [] ∧
    (learn_from_analysis st now ticker results).change_log = st.change_log := by
  have hd : detect_changes st.analysis_history ticker results = [] := by
    rw [detect_changes, prev_analysis, h]; rfl
  exact ⟨hd, by simp [learn_from_analysis, hd]⟩

/-- Witness for C6 on the empty ledger. -/
theorem c6_first_record_no_change_events_witness :
    detect_changes emptySentinel.analysis_history "ACME" { combined_score := some 7 } = [] ∧
    (learn_from_analysis emptySentinel 0 "ACME"
      { combined_score := some 7 }).change_log = emptySentinel.change_log :=
  c6_first_record_no_change_events emptySentinel 0 "ACME" { combined_score := some 7 } rfl

/-- Claim C8: `force_refresh` called with neither a data kind nor a ticker
leaves the cache store completely unchanged — no branch of the delete chain
runs. -/
theorem c8_force_refresh_no_args_noop (st : CacheState) :
    force_refresh st none none = st := rfl

/-- Claim C9 (counterexample): a cache hit does not add the per-data-kind
estimated cost to the entry's `cost_saved`.  Concretely: after
`set("fed_rate", ..., cost=0)` and an immediately following successful `get`,
the sole cache entry still has `cost_saved = 0`, although the estimated cost
for fed_rate is 0.001 ≠ 0 — so the claimed per-hit increment did not
happen. -/
theorem c9_hit_does_not_increase_entry_cost_saved :
    (get (set emptyCache 0 "fed_rate" "p" (some "ACME") 0 []) 0 "fed_rate"
      (some "ACME") []).1 = some "p" ∧
    ((get (set emptyCache 0 "fed_rate" "p" (some "ACME") 0 []) 0 "fed_rate"
      (some "ACME") []).2.cache.map (fun e => e.cost_saved)) = [0] ∧
    estimate_cost "fed_rate" ≠ 0 := by
  have h := get_set_round_trip emptyCache 0 "fed_rate" "p" (some "ACME") (some "ACME") 0 rfl
    (by rw [show freshness_ttl "fed_rate" = 24 from rfl]; norm_num)
  refine ⟨by rw [h], by rw [h]; rfl, ?_⟩
  rw [show estimate_cost "fed_rate" = 1/1000 from rfl]
  norm_num

/-- Claim C9 (amended): `cost_saved` on a cache entry is set by `set` to its
`cost` argument and is left unchanged by hits; a successful `get` instead
increments the entry's `access_count` and appends one row carrying the
per-data-kind estimated cost to the separate `api_costs` log. -/
theorem c9_hit_updates_access_count_and_cost_log (st : CacheState) (now : ℚ)
    (data_type : String) (ticker : Option String) (kwargs : List (String × String))
    (p : Payload) (h : (get st now data_type ticker kwargs).1 = some p) :
    ((get st now data_type ticker kwargs).2.cache.map (fun e => (e.key, e.cost_saved)) =
      st.cache.map (fun e => (e.key, e.cost_saved))) ∧
    (get st now data_type ticker kwargs).2.api_costs =
      st.api_costs ++ [log_cache_hit_row data_type ticker] ∧
    ((get st now data_type ticker kwargs).2.cache.map (fun e => (e.key, e.access_count)) =
      st.cache.map (fun e => (e.key,
        if e.key == generate_key data_type ticker kwargs then e.access_count + 1
        else e.access_count))) := by
  cases hsr : should_refresh st now data_type ticker with
  | true => rw [get, hsr] at h; simp at h
  | false =>
      cases hfind : st.cache.find? (fun x =>
          x.key == generate_key data_type ticker kwargs && decide (now < x.expires_at)) with
      | none => rw [get, hsr, if_neg (by simp), hfind] at h; simp at h
      | some e =>
          rw [get_hit st now data_type ticker kwargs e hsr hfind]
          refine ⟨?_, rfl, ?_⟩
          · rw [List.map_map]
            refine List.map_congr_left (fun x _ => ?_)
            by_cases hx : x.key = generate_key data_type ticker kwargs
            · simp [hx]
            · simp [hx]
          · rw [List.map_map]
            refine List.map_congr_left (fun x _ => ?_)
            by_cases hx : x.key = generate_key data_type ticker kwargs
            · simp [hx]
            · simp [hx]

/-- Witness for the amended C9 at concrete inputs. -/
theorem c9_hit_updates_access_count_and_cost_log_witness :
    ((get (set emptyCache 0 "fed_rate" "p" (some "ACME") 0 []) 0 "fed_rate"
        (some "ACME") []).2.cache.map (fun e => (e.key, e.cost_saved)) =
      (set emptyCache 0 "fed_rate" "p" (some "ACME") 0 []).cache.map
        (fun e => (e.key, e.cost_saved))) ∧
    (get (set emptyCache 0 "fed_rate" "p" (some "ACME") 0 []) 0 "fed_rate"
        (some "ACME") []).2.api_costs =
      (set emptyCache 0 "fed_rate" "p" (some "ACME") 0 []).api_costs ++
        [log_cache_hit_row "fed_rate" (some "ACME")] ∧
    ((get (set emptyCache 0 "fed_rate" "p" (some "ACME") 0 []) 0 "fed_rate"
        (some "ACME") []).2.cache.map (fun e => (e.key, e.access_count)) =
      (set emptyCache 0 "fed_rate" "p" (some "ACME") 0 []).cache.map
        (fun e => (e.key,
          if e.key == generate_key "fed_rate" (some "ACME") [] then e.access_count + 1
          else e.access_count))) :=
  c9_hit_updates_access_count_and_cost_log
    (set emptyCache 0 "fed_rate" "p" (some "ACME") 0 []) 0 "fed_rate" (some "ACME") [] "p"
    (by rw [get_set_round_trip emptyCache 0 "fed_rate" "p" (some "ACME") (some "ACME") 0 rfl
          (by rw [show freshness_ttl "fed_rate" = 24 from rfl]; norm_num)])

/-- Claim C10 (counterexample): the claim quantifies over every data kind,
but for a TTL-0 kind the `get` after a `set` under a case-differing subject
returns MISS, not the stored payload (every read of a TTL-0 kind is a forced
miss). -/
theorem c10_ttl_zero_kind_fails_cross_case_retrieval :
    (get (set emptyCache 0 "stock_price_current" "p" (some "acme") 0 []) 0
      "stock_price_current" (some "ACME") []).1 = none := by
  decide

/-- Claim C10 (amended): cache keys are case-insensitive in the subject — any
two non-empty subjects with the same uppercasing yield the same key for every
data kind and extra params — and consequently, for data kinds with positive
TTL and no extra params, a `get` under one casing immediately after a `set`
under the other returns the stored payload. -/
theorem c10_case_insensitive_subject_keys (st : CacheState) (now : ℚ)
    (data_type : String) (kwargs : List (String × String)) (s1 s2 : String)
    (p : Payload) (cost : ℚ)
    (h1 : s1.isEmpty = false) (h2 : s2.isEmpty = false)
    (hu : py_upper s1 = py_upper s2) :
    generate_key data_type (some s1) kwargs = generate_key data_type (some s2) kwargs ∧
    (0 < freshness_ttl data_type →
      (get (set st now data_type p (some s1) cost []) now data_type (some s2) []).1 =
        some p) := by
  have hk : ∀ kw : List (String × String),
      generate_key data_type (some s1) kw = generate_key data_type (some s2) kw :=
    fun kw => by simp [generate_key, h1, h2, hu]
  refine ⟨hk kwargs, fun httl => ?_⟩
  rw [get_set_round_trip st now data_type p (some s1) (some s2) cost (hk []) httl]

/-- Witness for the amended C10 at concrete inputs. -/
theorem c10_case_insensitive_subject_keys_witness :
    generate_key "stock_fundamentals" (some "acme") [("period", "q1")] =
        generate_key "stock_fundamentals" (some "ACME") [("period", "q1")] ∧
    (get (set emptyCache 0 "stock_fundamentals" "p" (some "acme") 0 []) 0
      "stock_fundamentals" (some "ACME") []).1 = some "p" := by
  have h := c10_case_insensitive_subject_keys emptyCache 0 "stock_fundamentals"
    [("period", "q1")] "acme" "ACME" "p" 0 (by decide) (by decide) (by decide)
  exact ⟨h.1, h.2 (by rw [show freshness_ttl "stock_fundamentals" = 24 from rfl]; norm_num)⟩

/-- Unfolding of the per-field comparison when both values are present. -/
theorem field_event_some_eq (t fld : String) (old new : ℚ) :
    field_event t fld (some old) (some new) =
      if 1/2 ≤ |new - old| then
        some { ticker := t, module_name := py_replace fld "_score" "", field := fld,
               old_value := toString old, new_value := toString new,
               magnitude := |new - old|,
               significance := if 3/2 ≤ |new - old| then "HIGH" else "MEDIUM" }
      else none := rfl

/-- A field missing from the previous record produces no event. -/
theorem field_event_none_left (t fld : String) (n : Option ℚ) :
    field_event t fld none n = none := rfl

/-- A field missing from the current record produces no event. -/
theorem field_event_none_right (t fld : String) (o : Option ℚ) :
    field_event t fld o none = none := by
  cases o <;> rfl

/-- On records carrying exactly the `i`-th tracked field, the comparison loop
reduces to the comparison of that single field. -/
theorem score_changes_single (t : String) (i : Fin 6) (old new : ℚ) :
    score_changes t (rowWithField t i old) (resWithField i new) =
      List.filterMap (fun fon => field_event t fon.1 fon.2.1 fon.2.2)
        [(field_name i, some old, some new)] := by
  fin_cases i <;>
    simp [score_changes, score_fields, rowWithField, resWithField, field_name,
      field_event_none_left, field_event_none_right, List.filterMap_cons]

/-- Claim C5: threshold correctness of the change-detection comparison
(lines 209-222 of `_detect_changes`).  For a previous record and a current
results dict that both carry the `i`-th tracked score field, with values
`old` and `new`: an absolute delta of exactly 0.49 produces no ChangeEvent, a
delta of exactly 0.5 produces one MEDIUM event on that field, and a delta of
exactly 1.5 produces one HIGH event on that field. -/
theorem c5_change_threshold_correctness (t : String) (i : Fin 6) (old new : ℚ) :
    (|new - old| = 49/100 →
      score_changes t (rowWithField t i old) (resWithField i new) = []) ∧
    (|new - old| = 1/2 →
      score_changes t (rowWithField t i old) (resWithField i new) =
        [{ ticker := t, module_name := py_replace (field_name i) "_score" "",
           field := field_name i, old_value := toString old, new_value := toString new,
           magnitude := |new - old|, significance := "MEDIUM" }]) ∧
    (|new - old| = 3/2 →
      score_changes t (rowWithField t i old) (resWithField i new) =
        [{ ticker := t, module_name := py_replace (field_name i) "_score" "",
           field := field_name i, old_value := toString old, new_value := toString new,
           magnitude := |new - old|, significance := "HIGH" }]) := by
  refine ⟨fun h => ?_, fun h => ?_, fun h => ?_⟩
  · have he : field_event t (field_name i) (some old) (some new) = none := by
      rw [field_event_some_eq, if_neg (by rw [h]; try norm_num)]
    rw [score_changes_single]
    simp [List.filterMap_cons, he]
  · have he : field_event t (field_name i) (some old) (some new) =
        some { ticker := t, module_name := py_replace (field_name i) "_score" "",
               field := field_name i, old_value := toString old,
               new_value := toString new, magnitude := |new - old|,
               significance := "MEDIUM" } := by
      rw [field_event_some_eq, if_pos (by rw [h]; try norm_num),
        if_neg (by rw [h]; try norm_num)]
    rw [score_changes_single]
    simp [List.filterMap_cons, he]
  · have he : field_event t (field_name i) (some old) (some new) =
        some { ticker := t, module_name := py_replace (field_name i) "_score" "",
               field := field_name i, old_value := toString old,
               new_value := toString new, magnitude := |new - old|,
               significance := "HIGH" } := by
      rw [field_event_some_eq, if_pos (by rw [h]; try norm_num),
        if_pos (by rw [h]; try norm_num)]
    rw [score_changes_single]
    simp [List.filterMap_cons, he]

/-- Witness for C5 on the combined score with deltas 0.49, 0.5 and 1.5. -/
theorem c5_change_threshold_correctness_witness :
    score_changes "ACME" (rowWithField "ACME" 0 7) (resWithField 0 (749/100)) = [] ∧
    score_changes "ACME" (rowWithField "ACME" 0 7) (resWithField 0 (15/2)) =
      [{ ticker := "ACME", module_name := py_replace (field_name 0) "_score" "",
         field := field_name 0, old_value := toString (7 : ℚ),
         new_value := toString ((15 : ℚ)/2),
         magnitude := |(15 : ℚ)/2 - 7|, significance := "MEDIUM" }] ∧
    score_changes "ACME" (rowWithField "ACME" 0 7) (resWithField 0 (17/2)) =
      [{ ticker := "ACME", module_name := py_replace (field_name 0) "_score" "",
         field := field_name 0, old_value := toString (7 : ℚ),
         new_value := toString ((17 : ℚ)/2),
         magnitude := |(17 : ℚ)/2 - 7|, significance := "HIGH" }] :=
  ⟨(c5_change_threshold_correctness "ACME" 0 7 (749/100)).1
      (by rw [show (749 : ℚ)/100 - 7 = 49/100 by norm_num,
              abs_of_nonneg (by norm_num : (0 : ℚ) ≤ 49/100)]),
   (c5_change_threshold_correctness "ACME" 0 7 (15/2)).2.1
      (by rw [show (15 : ℚ)/2 - 7 = 1/2 by norm_num,
              abs_of_nonneg (by norm_num : (0 : ℚ) ≤ 1/2)]),
   (c5_change_threshold_correctness "ACME" 0 7 (17/2)).2.2
      (by rw [show (17 : ℚ)/2 - 7 = 3/2 by norm_num,
              abs_of_nonneg (by norm_num : (0 : ℚ) ≤ 3/2)])⟩

/-- Claim C7: the historical trend is classified from the earliest and latest
combined scores inside the window: zero rows give no_data, a single row gives
insufficient_data, and with at least two rows the result is improving when
latest > earliest + 1.0, declining when latest < earliest − 1.0, and stable
otherwise. -/
theorem c7_trend_classification (st : SentinelState) (now : ℚ) (ticker : String)
    (days : ℚ) :
    (trend_rows st now ticker days = [] →
      get_historical_trend st now ticker days = some "no_data") ∧
    ((trend_rows st now ticker days).length = 1 →
      get_historical_trend st now ticker days = some "insufficient_data") ∧
    (∀ (first_r last_r : HistoryRow) (f l : ℚ),
      2 ≤ (trend_rows st now ticker days).length →
      (trend_rows st now ticker days).head? = some first_r →
      (trend_rows st now ticker days).getLast? = some last_r →
      first_r.combined_score = some f → last_r.combined_score = some l →
      get_historical_trend st now ticker days =
        some (if f + 1 < l then "improving"
              else if l < f - 1 then "declining" else "stable")) := by
  refine ⟨fun h => ?_, fun h => ?_, fun fr lr f l h2 hh hl hf hlc => ?_⟩
  · simp [get_historical_trend, h]
  · have hne : trend_rows st now ticker days ≠ [] := by
      intro he; rw [he] at h; simp at h
    simp [get_historical_trend, List.isEmpty_iff, hne, h]
  · have hne : trend_rows st now ticker days ≠ [] := by
      intro he; rw [he] at h2; simp at h2
    simp [get_historical_trend, List.isEmpty_iff, hne, h2, hh, hl, hf, hlc]

/-- History rows used by the C7 witness. -/
def c7_row_early : HistoryRow :=
  { ticker := "ACME", analysis_date := 1, combined_score := some 5, signal := none,
    monetary_score := none, company_score := none, supplier_score := none,
    customer_score := none, macro_score := none, cost := 0 }

def c7_row_late : HistoryRow :=
  { ticker := "ACME", analysis_date := 2, combined_score := some 7, signal := none,
    monetary_score := none, company_score := none, supplier_score := none,
    customer_score := none, macro_score := none, cost := 0 }

def c7_state : SentinelState :=
  { analysis_history := [c7_row_early, c7_row_late], change_log := [],
    learned_insights := [] }

/-- Witness for C7: two records inside a 90-day window with combined scores 5
then 7 classify as improving. -/
theorem c7_trend_classification_witness :
    get_historical_trend c7_state 2 "ACME" 90 = some "improving" := by
  have hrows : trend_rows c7_state 2 "ACME" 90 = [c7_row_early, c7_row_late] := by
    norm_num [trend_rows, c7_state, c7_row_early, c7_row_late, List.filter_cons]
  have h := (c7_trend_classification c7_state 2 "ACME" 90).2.2 c7_row_early c7_row_late 5 7
    (by rw [hrows]; norm_num) (by rw [hrows]; rfl) (by rw [hrows]; rfl) rfl rfl
  rw [h]
  norm_num

end FactorImpact
